import Mathlib

/-!
Verification development for the lyre-calculator repository.

The dimension-derivation chain (`generateCriticalDimensions` and its
helpers) and the three SVG view builders (`drawTalharpaSVG`,
`drawTalharpaSideSVG`, `drawTalharpaFrameSVG`) are embedded over ℚ,
mirroring the JavaScript source constant by constant.  Geometry is
represented with an explicit path-segment grammar (move/line/arc with a
radius and a sweep flag), exactly as the source emits SVG path strings.
-/

namespace Lyre

/-- A 2D point with rational coordinates. -/
structure Point where
  x : ℚ
  y : ℚ

/-- One segment of an SVG path after the initial move: a straight line
or a circular arc with radius `r` and a boolean sweep flag
(`true` encodes SVG sweep flag 1, `false` encodes 0). -/
inductive PathSeg where
  | line (tgt : Point)
  | arc (r : ℚ) (sweep : Bool) (tgt : Point)

/-- The point a segment ends at. -/
def PathSeg.target : PathSeg → Point
  | .line p => p
  | .arc _ _ p => p

/-- An outline path: the initial `M` point followed by the emitted segments. -/
structure Outline where
  start : Point
  segs : List PathSeg

/-- The last point emitted by an outline (its start if it has no segments). -/
def Outline.lastPoint (o : Outline) : Point :=
  match o.segs.getLast? with
  | none => o.start
  | some s => s.target

/-- Closure invariant: the outline's final segment returns to its first point. -/
def Outline.closed (o : Outline) : Prop := o.lastPoint = o.start

/-- The (radius, sweep flag) data of the arcs of an outline, in path order. -/
def Outline.arcs (o : Outline) : List (ℚ × Bool) :=
  o.segs.filterMap fun s =>
    match s with
    | .arc r sw _ => some (r, sw)
    | .line _ => none

/-!  Dimension derivation: helper functions of `main.js`. -/

/-- Embeds `calcOverallLength` (piecewise overall length in mm). -/
def calcOverallLength (scaleCm : ℚ) : ℚ :=
  if scaleCm ≤ 40 then scaleCm * 1.66 * 10
  else if 56 ≤ scaleCm then scaleCm * 1.43 * 10
  else
    let fraction := (scaleCm - 40) / (56 - 40)
    let mult := 1.66 + (1.43 - 1.66) * fraction
    scaleCm * mult * 10

/-- Embeds `calcBridgeWidthFromScale` (piecewise bridge width in mm). -/
def calcBridgeWidthFromScale (scaleCm : ℚ) : ℚ :=
  if scaleCm ≤ 30 then 60
  else if 56 ≤ scaleCm then 70
  else
    let frac := (scaleCm - 30) / (56 - 30)
    60 + (70 - 60) * frac

/-- Embeds `calcBodyMinWidth` (piecewise body minimum width in mm). -/
def calcBodyMinWidth (scaleCm : ℚ) : ℚ :=
  if scaleCm ≤ 32 then 160
  else if 56 ≤ scaleCm then 210
  else if scaleCm ≤ 37 then 160 + (190 - 160) * ((scaleCm - 32) / (37 - 32))
  else 190 + (210 - 190) * ((scaleCm - 37) / (56 - 37))

/-- The named scalar dimensions computed by `generateCriticalDimensions`. -/
structure DimensionSet where
  pegToBridge : ℚ
  overallLenMm : ℚ
  windowLength : ℚ
  windowWidth : ℚ
  pegSpacing : ℚ
  headstockWidth : ℚ
  rawBridgeWidth : ℚ
  gap : ℚ
  bodyMinWidth : ℚ
  bodyMinDepth : ℚ
  cutOutTop : ℚ
  soundHoleCenter : ℚ
  neckStart : ℚ
  neckThickness : ℚ
  tailTopWidth : ℚ
  tailBottomWidth : ℚ
  tailLength : ℚ

/-- Embeds the dimension chain of `generateCriticalDimensions` in `main.js`
(the part that computes the dimension values, before any DOM work). -/
def generateCriticalDimensions (scaleCm : ℚ) (numStrings : ℕ) : DimensionSet :=
  let scaleMm := scaleCm * 10
  let overallLenMm := calcOverallLength scaleCm
  let windowLength := scaleMm * 0.5 + 20
  let pegSpacing : ℚ := 36
  let windowWidth := pegSpacing * (numStrings : ℚ)
  let headstockWidth := windowWidth + 50
  let rawBridgeWidth := calcBridgeWidthFromScale scaleCm
  let marginPerSide : ℚ := 12
  let usableSpan0 := rawBridgeWidth - 2 * marginPerSide
  let usableSpan := if usableSpan0 < 0 then 0 else usableSpan0
  let gap : ℚ :=
    if 1 < numStrings then
      let g := usableSpan / ((numStrings : ℚ) - 1)
      if g < 0 then 0 else g
    else 0
  let bodyMinWidth := calcBodyMinWidth scaleCm
  let calculatedDepth := scaleMm * 0.12
  let bodyMinDepth := max 45 (min calculatedDepth 70)
  let cutOutTop : ℚ := 35
  let soundHoleCenter := ((scaleMm - windowLength - cutOutTop / 2) / 1.85) + windowLength + cutOutTop
  let bottomOfWindow := windowLength + cutOutTop
  let neckStart := (soundHoleCenter - bottomOfWindow) / 3 + bottomOfWindow
  let neckThickness : ℚ := if 450 < scaleMm then 35 else 25
  let tailTopWidth := gap * (numStrings : ℚ)
  let tailBottomWidth := tailTopWidth * 0.7
  let diff0 := overallLenMm - scaleMm
  let diff := if diff0 < 0 then 0 else diff0
  let tailLength := 0.4 * diff
  { pegToBridge := scaleMm
    overallLenMm := overallLenMm
    windowLength := windowLength
    windowWidth := windowWidth
    pegSpacing := pegSpacing
    headstockWidth := headstockWidth
    rawBridgeWidth := rawBridgeWidth
    gap := gap
    bodyMinWidth := bodyMinWidth
    bodyMinDepth := bodyMinDepth
    cutOutTop := cutOutTop
    soundHoleCenter := soundHoleCenter
    neckStart := neckStart
    neckThickness := neckThickness
    tailTopWidth := tailTopWidth
    tailBottomWidth := tailBottomWidth
    tailLength := tailLength }

/-- The configuration record handed by `generateCriticalDimensions` to the
three view functions.  Optional fields carry `Option ℚ` so that the views'
destructuring defaults (`drawingMargin = 10`, `extraMargin = 50`) can be
modelled faithfully; `margin` is the field the assembling code sets to 10
but no view ever reads. -/
structure DrawConfig where
  headstockWidth : ℚ
  bodyMinWidth : ℚ
  bodyMinDepth : ℚ
  overallLenMm : ℚ
  cutOutTop : ℚ
  windowWidth : ℚ
  windowLength : ℚ
  neckStart : ℚ
  neckThickness : ℚ
  rTopFactor : ℚ
  rBottomFactor : ℚ
  rWindowFactor : ℚ
  rawBridgeWidth : ℚ
  bridgeLength : ℚ
  pegStart : ℚ
  scaleMm : ℚ
  pegSpacing : ℚ
  numStrings : ℕ
  pegHoleRadius : ℚ
  gap : ℚ
  margin : ℚ
  drawingMargin : Option ℚ
  extraMargin : Option ℚ

/-- The config object built at the end of `generateCriticalDimensions`
(source lines assembling `const config = {...}` with `margin: 10`). -/
def mkDrawConfig (scaleCm : ℚ) (numStrings : ℕ) : DrawConfig :=
  let dims := generateCriticalDimensions scaleCm numStrings
  { headstockWidth := dims.headstockWidth
    bodyMinWidth := dims.bodyMinWidth
    bodyMinDepth := dims.bodyMinDepth
    overallLenMm := dims.overallLenMm
    cutOutTop := dims.cutOutTop
    windowWidth := dims.windowWidth
    windowLength := dims.windowLength
    neckStart := dims.neckStart
    neckThickness := dims.neckThickness
    rTopFactor := 0.08
    rBottomFactor := 0.2
    rWindowFactor := 0.08
    rawBridgeWidth := dims.rawBridgeWidth
    bridgeLength := 5
    pegStart := dims.cutOutTop / 2
    scaleMm := dims.pegToBridge
    pegSpacing := dims.pegSpacing
    numStrings := numStrings
    pegHoleRadius := 3
    gap := dims.gap
    margin := 10
    drawingMargin := none
    extraMargin := none }

/-!  Front view: `drawTalharpaSVG` in `draw.js`.  Each JS `const` becomes a
definition over the config record. -/

namespace Front

/-- Destructuring default: `drawingMargin = 10`. -/
def drawingMarginVal (c : DrawConfig) : ℚ := c.drawingMargin.getD 10

/-- Destructuring default: `extraMargin = 50`. -/
def extraMarginVal (c : DrawConfig) : ℚ := c.extraMargin.getD 50

/-- The `totalMargin` offset applied to every front-view coordinate. -/
def totalMargin (c : DrawConfig) : ℚ := drawingMarginVal c + extraMarginVal c

def rTop (c : DrawConfig) : ℚ := c.rTopFactor * c.headstockWidth

def rBottom (c : DrawConfig) : ℚ := c.rBottomFactor * c.bodyMinWidth

def rWindow (c : DrawConfig) : ℚ := c.rWindowFactor * c.windowWidth

def maxBodyWidth (c : DrawConfig) : ℚ := max c.headstockWidth c.bodyMinWidth

def topY (c : DrawConfig) : ℚ := totalMargin c

def bottomY (c : DrawConfig) : ℚ := totalMargin c + c.overallLenMm

def topMidX (c : DrawConfig) : ℚ := totalMargin c + maxBodyWidth c / 2

def topLeftX (c : DrawConfig) : ℚ := topMidX c - c.headstockWidth / 2

def topRightX (c : DrawConfig) : ℚ := topMidX c + c.headstockWidth / 2

def bottomLeftX (c : DrawConfig) : ℚ := topMidX c - c.bodyMinWidth / 2

def bottomRightX (c : DrawConfig) : ℚ := topMidX c + c.bodyMinWidth / 2

def startX (c : DrawConfig) : ℚ := topLeftX c + rTop c

/-- The body-outline path of the front view (centered trapezoid, sweep flag 1
on all four rounded corners). -/
def outline (c : DrawConfig) : Outline :=
  { start := ⟨startX c, topY c⟩
    segs := [ .line ⟨topRightX c - rTop c, topY c⟩,
              .arc (rTop c) true ⟨topRightX c, topY c + rTop c⟩,
              .line ⟨bottomRightX c, bottomY c - rBottom c⟩,
              .arc (rBottom c) true ⟨bottomRightX c - rBottom c, bottomY c⟩,
              .line ⟨bottomLeftX c + rBottom c, bottomY c⟩,
              .arc (rBottom c) true ⟨bottomLeftX c, bottomY c - rBottom c⟩,
              .line ⟨topLeftX c, topY c + rTop c⟩,
              .arc (rTop c) true ⟨startX c, topY c⟩ ] }

def windowX (c : DrawConfig) : ℚ :=
  topMidX c - c.headstockWidth / 2 + (c.headstockWidth - c.windowWidth) / 2

def windowY (c : DrawConfig) : ℚ := totalMargin c + c.cutOutTop

def bridgeCenterY (c : DrawConfig) : ℚ := totalMargin c + c.pegStart + c.scaleMm

def bridgeX (c : DrawConfig) : ℚ :=
  topMidX c - c.headstockWidth / 2 + (c.headstockWidth - c.rawBridgeWidth) / 2

def bridgeY (c : DrawConfig) : ℚ := bridgeCenterY c - c.bridgeLength / 2

def pegLineY (c : DrawConfig) : ℚ := totalMargin c + c.pegStart

def totalPegSpan (c : DrawConfig) : ℚ := ((c.numStrings : ℚ) - 1) * c.pegSpacing

def pegStartXPos (c : DrawConfig) : ℚ :=
  topMidX c - c.headstockWidth / 2 + c.headstockWidth / 2 - totalPegSpan c / 2

/-- The `cx` coordinates of the peg-hole circles, in emission order. -/
def pegHolePositions (c : DrawConfig) : List ℚ :=
  (List.range c.numStrings).map fun (i : ℕ) => pegStartXPos c + (i : ℚ) * c.pegSpacing

def totalBridgeSpanDim (c : DrawConfig) : ℚ := ((c.numStrings : ℚ) - 1) * c.gap

def bridgeAnchorStartX (c : DrawConfig) : ℚ :=
  bridgeX c + c.rawBridgeWidth / 2 - totalBridgeSpanDim c / 2

/-- The `x` coordinates of the bridge string anchors, in emission order. -/
def anchorXPositions (c : DrawConfig) : List ℚ :=
  (List.range c.numStrings).map fun (i : ℕ) => bridgeAnchorStartX c + (i : ℚ) * c.gap

def tailTopWidthVal (c : DrawConfig) : ℚ := c.gap * (c.numStrings : ℚ)

def tailBottomWidth (c : DrawConfig) : ℚ := tailTopWidthVal c * 0.7

/-- The front view's tail length `0.4 * (overallLenMm - scaleMm)` (unclamped). -/
def tailLengthVal (c : DrawConfig) : ℚ := 0.4 * (c.overallLenMm - c.scaleMm)

def tailRadiusVal : ℚ := 4

def regionStart (c : DrawConfig) : ℚ := bridgeY c + c.bridgeLength

def regionEnd (c : DrawConfig) : ℚ := bottomY c

def regionSpan (c : DrawConfig) : ℚ := regionEnd c - regionStart c

def verticalOffset (c : DrawConfig) : ℚ := (regionSpan c - tailLengthVal c) / 2

def tailTopY (c : DrawConfig) : ℚ := regionStart c + verticalOffset c

def tailBottomY (c : DrawConfig) : ℚ := tailTopY c + tailLengthVal c

def tailMidX (c : DrawConfig) : ℚ := topMidX c

def tailTopLeftX (c : DrawConfig) : ℚ := tailMidX c - tailTopWidthVal c / 2

def tailTopRightX (c : DrawConfig) : ℚ := tailMidX c + tailTopWidthVal c / 2

def tailBottomLeftX (c : DrawConfig) : ℚ := tailMidX c - tailBottomWidth c / 2

def tailBottomRightX (c : DrawConfig) : ℚ := tailMidX c + tailBottomWidth c / 2

def startTailX (c : DrawConfig) : ℚ := tailTopLeftX c + tailRadiusVal

/-- The tailpiece trapezoid outline of the front view. -/
def tailOutline (c : DrawConfig) : Outline :=
  { start := ⟨startTailX c, tailTopY c⟩
    segs := [ .line ⟨tailTopRightX c - tailRadiusVal, tailTopY c⟩,
              .arc tailRadiusVal true ⟨tailTopRightX c, tailTopY c + tailRadiusVal⟩,
              .line ⟨tailBottomRightX c, tailBottomY c - tailRadiusVal⟩,
              .arc tailRadiusVal true ⟨tailBottomRightX c - tailRadiusVal, tailBottomY c⟩,
              .line ⟨tailBottomLeftX c + tailRadiusVal, tailBottomY c⟩,
              .arc tailRadiusVal true ⟨tailBottomLeftX c, tailBottomY c - tailRadiusVal⟩,
              .line ⟨tailTopLeftX c, tailTopY c + tailRadiusVal⟩,
              .arc tailRadiusVal true ⟨startTailX c, tailTopY c⟩ ] }

def tailHoleLineY (c : DrawConfig) : ℚ := tailTopY c + 13

/-- The `cx` coordinates of the tail-piece holes: a single midpoint hole for
one string, otherwise `numStrings` holes spaced `tailTopWidth/(numStrings+1)`
from the tailpiece's left edge. -/
def tailHolePositions (c : DrawConfig) : List ℚ :=
  if c.numStrings = 1 then [(tailTopLeftX c + tailTopRightX c) / 2]
  else
    let spacing := tailTopWidthVal c / ((c.numStrings : ℚ) + 1)
    (List.range c.numStrings).map fun (i : ℕ) => tailTopLeftX c + spacing * ((i : ℚ) + 1)

/-- The soundhole diameter: 50, overridden to 30 when `scaleMm < 350`. -/
def centralHoleDiameter (c : DrawConfig) : ℚ := if c.scaleMm < 350 then 30 else 50

def centralHoleRadius (c : DrawConfig) : ℚ := centralHoleDiameter c / 2

def windowBottomY (c : DrawConfig) : ℚ := windowY c + c.windowLength

/-- The soundhole centre `cy`: `(windowBottomY+bridgeY)/1.85`, overridden to
a `/1.9` divisor when `scaleMm < 350`. -/
def centralHoleCenterY (c : DrawConfig) : ℚ :=
  if c.scaleMm < 350 then (windowBottomY c + bridgeY c) / 1.9
  else (windowBottomY c + bridgeY c) / 1.85

def centralHoleCenterX (c : DrawConfig) : ℚ := topMidX c

end Front

/-- The drawable output of the front view relevant to the derivation:
outlines, anchor rows, the bridge and window rectangles and the soundhole. -/
structure FrontScene where
  outline : Outline
  windowX : ℚ
  windowY : ℚ
  rWindow : ℚ
  bridgeX : ℚ
  bridgeY : ℚ
  pegLineY : ℚ
  pegHolePositions : List ℚ
  anchorXPositions : List ℚ
  tailOutline : Outline
  tailHoleLineY : ℚ
  tailHolePositions : List ℚ
  tailLengthVal : ℚ
  centralHoleCenterX : ℚ
  centralHoleCenterY : ℚ
  centralHoleRadius : ℚ
  topMidX : ℚ

/-- Embeds `drawTalharpaSVG`: assembles the front-view scene. -/
def drawTalharpaSVG (c : DrawConfig) : FrontScene :=
  { outline := Front.outline c
    windowX := Front.windowX c
    windowY := Front.windowY c
    rWindow := Front.rWindow c
    bridgeX := Front.bridgeX c
    bridgeY := Front.bridgeY c
    pegLineY := Front.pegLineY c
    pegHolePositions := Front.pegHolePositions c
    anchorXPositions := Front.anchorXPositions c
    tailOutline := Front.tailOutline c
    tailHoleLineY := Front.tailHoleLineY c
    tailHolePositions := Front.tailHolePositions c
    tailLengthVal := Front.tailLengthVal c
    centralHoleCenterX := Front.centralHoleCenterX c
    centralHoleCenterY := Front.centralHoleCenterY c
    centralHoleRadius := Front.centralHoleRadius c
    topMidX := Front.topMidX c }

/-!  Side view: `drawTalharpaSideSVG` in `drawSide.js`. -/

namespace Side

def drawingMarginVal (c : DrawConfig) : ℚ := c.drawingMargin.getD 10

def extraMarginVal (c : DrawConfig) : ℚ := c.extraMargin.getD 50

def totalMargin (c : DrawConfig) : ℚ := drawingMarginVal c + extraMarginVal c

/-- Small fixed radius used at most corners. -/
def rFixed : ℚ := 3

/-- The neck-join blend radius `(bodyMinDepth - neckThickness) / 2`. -/
def rBlend (c : DrawConfig) : ℚ := (c.bodyMinDepth - c.neckThickness) / 2

def ptA (c : DrawConfig) : Point := ⟨totalMargin c + c.bodyMinDepth, totalMargin c + c.overallLenMm⟩

def ptB (c : DrawConfig) : Point := ⟨totalMargin c + c.bodyMinDepth, totalMargin c⟩

def ptC (c : DrawConfig) : Point := ⟨totalMargin c + c.bodyMinDepth - c.neckThickness, totalMargin c⟩

def ptD (c : DrawConfig) : Point :=
  ⟨totalMargin c + c.bodyMinDepth - c.neckThickness, totalMargin c + c.neckStart⟩

def ptE (c : DrawConfig) : Point := ⟨totalMargin c, totalMargin c + c.neckStart⟩

def ptF (c : DrawConfig) : Point := ⟨totalMargin c, totalMargin c + c.overallLenMm⟩

def ptB1 (c : DrawConfig) : Point := ⟨(ptB c).x, (ptB c).y + rFixed⟩

def ptB2 (c : DrawConfig) : Point := ⟨(ptB c).x - rFixed, (ptB c).y⟩

def ptC1 (c : DrawConfig) : Point := ⟨(ptC c).x + rFixed, (ptC c).y⟩

def ptC2 (c : DrawConfig) : Point := ⟨(ptC c).x, (ptC c).y + rFixed⟩

def ptD1 (c : DrawConfig) : Point := ⟨(ptD c).x, (ptD c).y - rBlend c⟩

def ptD2 (c : DrawConfig) : Point := ⟨(ptD c).x - rBlend c, (ptD c).y⟩

def ptE1 (c : DrawConfig) : Point := ⟨(ptE c).x + rFixed, (ptE c).y⟩

def ptE2 (c : DrawConfig) : Point := ⟨(ptE c).x, (ptE c).y + rFixed⟩

def ptF1 (c : DrawConfig) : Point := ⟨(ptF c).x, (ptF c).y - rFixed⟩

def ptF2 (c : DrawConfig) : Point := ⟨(ptF c).x + rFixed, (ptF c).y⟩

def ptA1 (c : DrawConfig) : Point := ⟨(ptA c).x - rFixed, (ptA c).y⟩

def ptA2 (c : DrawConfig) : Point := ⟨(ptA c).x, (ptA c).y - rFixed⟩

/-- The side-view body outline: fixed corners with sweep flag 0, the neck
join between D and E with radius `rBlend` and sweep flag 1. -/
def outline (c : DrawConfig) : Outline :=
  { start := ptA2 c
    segs := [ .line (ptB1 c),
              .arc rFixed false (ptB2 c),
              .line (ptC1 c),
              .arc rFixed false (ptC2 c),
              .line (ptD1 c),
              .arc (rBlend c) true (ptD2 c),
              .line (ptE1 c),
              .arc rFixed false (ptE2 c),
              .line (ptF1 c),
              .arc rFixed false (ptF2 c),
              .line (ptA1 c),
              .arc rFixed false (ptA2 c) ] }

end Side

/-- The drawable output of the side view relevant to the derivation. -/
structure SideScene where
  outline : Outline
  rBlend : ℚ

/-- Embeds `drawTalharpaSideSVG`: assembles the side-view scene. -/
def drawTalharpaSideSVG (c : DrawConfig) : SideScene :=
  { outline := Side.outline c
    rBlend := Side.rBlend c }

/-!  Frame view: `drawTalharpaFrameSVG`. -/

namespace Frame

def drawingMarginVal (c : DrawConfig) : ℚ := c.drawingMargin.getD 10

def extraMarginVal (c : DrawConfig) : ℚ := c.extraMargin.getD 50

def totalMargin (c : DrawConfig) : ℚ := drawingMarginVal c + extraMarginVal c

def maxBodyWidth (c : DrawConfig) : ℚ := max c.headstockWidth c.bodyMinWidth

def topY (c : DrawConfig) : ℚ := totalMargin c

def bottomY (c : DrawConfig) : ℚ := totalMargin c + c.overallLenMm

def topMidX (c : DrawConfig) : ℚ := totalMargin c + maxBodyWidth c / 2

def topLeftX (c : DrawConfig) : ℚ := topMidX c - c.headstockWidth / 2

def topRightX (c : DrawConfig) : ℚ := topMidX c + c.headstockWidth / 2

def bottomLeftX (c : DrawConfig) : ℚ := topMidX c - c.bodyMinWidth / 2

def bottomRightX (c : DrawConfig) : ℚ := topMidX c + c.bodyMinWidth / 2

/-- Hard-coded outer corner radius `0.08 * headstockWidth` in the frame view. -/
def rTop (c : DrawConfig) : ℚ := 0.08 * c.headstockWidth

/-- Hard-coded outer corner radius `0.2 * bodyMinWidth` in the frame view. -/
def rBottom (c : DrawConfig) : ℚ := 0.2 * c.bodyMinWidth

def startX (c : DrawConfig) : ℚ := topLeftX c + rTop c

/-- The frame view's outer body outline (same topology as the front view). -/
def outline (c : DrawConfig) : Outline :=
  { start := ⟨startX c, topY c⟩
    segs := [ .line ⟨topRightX c - rTop c, topY c⟩,
              .arc (rTop c) true ⟨topRightX c, topY c + rTop c⟩,
              .line ⟨bottomRightX c, bottomY c - rBottom c⟩,
              .arc (rBottom c) true ⟨bottomRightX c - rBottom c, bottomY c⟩,
              .line ⟨bottomLeftX c + rBottom c, bottomY c⟩,
              .arc (rBottom c) true ⟨bottomLeftX c, bottomY c - rBottom c⟩,
              .line ⟨topLeftX c, topY c + rTop c⟩,
              .arc (rTop c) true ⟨startX c, topY c⟩ ] }

def insideOffsetSide : ℚ := 7

def insideOffsetBottom : ℚ := 18

def insideTopY (c : DrawConfig) : ℚ := topY c + c.neckStart

def insideBottomY (c : DrawConfig) : ℚ := bottomY c - insideOffsetBottom

/-- Interpolated body width at the neck-start level. -/
def wNeck (c : DrawConfig) : ℚ :=
  c.headstockWidth + (c.bodyMinWidth - c.headstockWidth) * (c.neckStart / c.overallLenMm)

def insideTopWidth (c : DrawConfig) : ℚ := max (wNeck c - 2 * insideOffsetSide) 0

def insideBottomWidth (c : DrawConfig) : ℚ := max (c.bodyMinWidth - 2 * insideOffsetSide) 0

def rInsideBottom (c : DrawConfig) : ℚ :=
  max (rBottom c - min insideOffsetSide insideOffsetBottom) 0

def insideTopMidX (c : DrawConfig) : ℚ := topMidX c

def insideTopLeftX (c : DrawConfig) : ℚ := insideTopMidX c - insideTopWidth c / 2

def insideTopRightX (c : DrawConfig) : ℚ := insideTopMidX c + insideTopWidth c / 2

def insideBottomLeftX (c : DrawConfig) : ℚ := insideTopMidX c - insideBottomWidth c / 2

def insideBottomRightX (c : DrawConfig) : ℚ := insideTopMidX c + insideBottomWidth c / 2

/-- The lower structural-inset outline (7 mm side walls, 18 mm at the base). -/
def insetOutline (c : DrawConfig) : Outline :=
  { start := ⟨insideTopLeftX c, insideTopY c⟩
    segs := [ .line ⟨insideTopRightX c, insideTopY c⟩,
              .line ⟨insideBottomRightX c, insideBottomY c - rInsideBottom c⟩,
              .arc (rInsideBottom c) true ⟨insideBottomRightX c - rInsideBottom c, insideBottomY c⟩,
              .line ⟨insideBottomLeftX c + rInsideBottom c, insideBottomY c⟩,
              .arc (rInsideBottom c) true ⟨insideBottomLeftX c, insideBottomY c - rInsideBottom c⟩,
              .line ⟨insideTopLeftX c, insideTopY c⟩ ] }

end Frame

/-- The drawable output of the frame view relevant to the derivation. -/
structure FrameScene where
  outline : Outline
  insetOutline : Outline
  insideTopWidth : ℚ
  insideBottomWidth : ℚ

/-- Embeds `drawTalharpaFrameSVG`: assembles the frame-view scene. -/
def drawTalharpaFrameSVG (c : DrawConfig) : FrameScene :=
  { outline := Frame.outline c
    insetOutline := Frame.insetOutline c
    insideTopWidth := Frame.insideTopWidth c
    insideBottomWidth := Frame.insideBottomWidth c }

/-!  Request pipeline: validation before dimension computation
(`validateScaleLength` and `calculateStrings` in `main.js`). -/

/-- A JavaScript number as far as the validation logic observes it:
an exact rational, NaN, or a signed infinity. -/
inductive JsNum where
  | num (q : ℚ)
  | nan
  | posInf
  | negInf

/-- Embeds JavaScript `isNaN`. -/
def JsNum.isNaN : JsNum → Bool
  | .nan => true
  | _ => false

/-- Embeds the JavaScript comparison `s < a` against a rational constant
(`NaN` compares false, infinities compare as expected). -/
def JsNum.ltQ : JsNum → ℚ → Bool
  | .num q, a => decide (q < a)
  | .nan, _ => false
  | .posInf, _ => false
  | .negInf, _ => true

/-- Embeds the JavaScript comparison `s > a` against a rational constant. -/
def JsNum.gtQ : JsNum → ℚ → Bool
  | .num q, a => decide (a < q)
  | .nan, _ => false
  | .posInf, _ => true
  | .negInf, _ => false

/-- Embeds `validateScaleLength`: accept iff not NaN, not below 26, not
above 70.  (This is the only input guard on the dimension pipeline.) -/
def validateScaleLength (scaleLength : JsNum) : Bool :=
  !(scaleLength.isNaN || scaleLength.ltQ 26 || scaleLength.gtQ 70)

/-- The request pipeline of `calculateStrings`: the scale is validated
first; only on success is the dimension set computed.  `numStrings` is the
length of the chosen tuning and is passed through without any check. -/
def runRequest (scaleLength : JsNum) (numStrings : ℕ) : Option DimensionSet :=
  if validateScaleLength scaleLength then
    match scaleLength with
    | .num q => some (generateCriticalDimensions q numStrings)
    | _ => none
  else none

/-- The soundhole-centre formula exactly as the specification words it,
with a piecewise divisor (k = 1.85 for scaleMm ≥ 350, else k = 1.9) on the
same threshold as the diameter.  Stated from the spec's words, for
comparison with the code's derivation. -/
def soundholeCenterSpec (scaleCm : ℚ) : ℚ :=
  let scaleMm := scaleCm * 10
  let windowLength := scaleMm * 0.5 + 20
  let cutOutTop : ℚ := 35
  let k : ℚ := if 350 ≤ scaleMm then 1.85 else 1.9
  ((scaleMm - windowLength - cutOutTop / 2) / k) + windowLength + cutOutTop

/-!  Helper lemmas. -/

/-- Sum of an affine progression mapped over `List.range`. -/
lemma sum_map_range_affine (a d : ℚ) (n : ℕ) :
    ((List.range n).map (fun (i : ℕ) => a + (i : ℚ) * d)).sum
      = (n : ℚ) * a + d * ((n : ℚ) * ((n : ℚ) - 1)) / 2 := by
  induction n with
  | zero => simp
  | succ n ih =>
    rw [List.range_succ, List.map_append, List.sum_append, ih]
    push_cast
    simp only [List.map_cons, List.map_nil, List.sum_cons, List.sum_nil]
    ring

/-- Mean of an affine progression whose first element sits symmetrically
below a centre value. -/
lemma mean_map_range_affine (a d cX : ℚ) (n : ℕ) (hn : 1 ≤ n)
    (ha : a = cX - ((n : ℚ) - 1) * d / 2) :
    ((List.range n).map (fun (i : ℕ) => a + (i : ℚ) * d)).sum / (n : ℚ) = cX := by
  have hn' : (0 : ℚ) < (n : ℚ) := by exact_mod_cast hn
  rw [sum_map_range_affine, ha]
  field_simp
  ring

/-!  Theorems for the claims. -/

/-- C4: for every scaleCm in [26,70], bridgeWidth is 60 for scaleCm ≤ 30,
70 for scaleCm ≥ 56, and `60 + 10*(scaleCm-30)/26` in between; it is
exactly 60 at 30 and exactly 70 at 56, and always lies in [60,70]. -/
theorem bridgeWidth_piecewise (s : ℚ) (h1 : 26 ≤ s) (h2 : s ≤ 70) :
    (s ≤ 30 → calcBridgeWidthFromScale s = 60)
  ∧ (56 ≤ s → calcBridgeWidthFromScale s = 70)
  ∧ (30 < s → s < 56 → calcBridgeWidthFromScale s = 60 + 10 * (s - 30) / 26)
  ∧ calcBridgeWidthFromScale 30 = 60
  ∧ calcBridgeWidthFromScale 56 = 70
  ∧ 60 ≤ calcBridgeWidthFromScale s
  ∧ calcBridgeWidthFromScale s ≤ 70 := by
  unfold calcBridgeWidthFromScale
  refine ⟨fun h => by rw [if_pos h], fun h => ?_, fun hlo hhi => ?_, by norm_num, by norm_num, ?_, ?_⟩
  · rw [if_neg (by linarith), if_pos h]
  · rw [if_neg (by linarith), if_neg (by linarith)]
    ring
  · split_ifs with ha hb
    · norm_num
    · norm_num
    · push_neg at ha hb
      have : 0 ≤ (s - 30) / (56 - 30) := div_nonneg (by linarith) (by norm_num)
      linarith
  · split_ifs with ha hb
    · norm_num
    · norm_num
    · push_neg at ha hb
      have : (s - 30) / (56 - 30) ≤ 1 := by
        rw [div_le_one (by norm_num)]
        linarith
      linarith

/-- Witness for C4 at scaleCm = 43 (interior of the interpolation range). -/
theorem bridgeWidth_piecewise_witness :
    calcBridgeWidthFromScale 43 = 60 + 10 * (43 - 30) / 26 :=
  (bridgeWidth_piecewise 43 (by norm_num) (by norm_num)).2.2.1 (by norm_num) (by norm_num)

/-- C5: at scaleCm = 40 with 3 strings the derivation gives
overallLength = 664 mm, windowWidth = 108 mm, headstockWidth = 158 mm. -/
theorem concrete_case_40_3 :
    (generateCriticalDimensions 40 3).overallLenMm = 664
  ∧ (generateCriticalDimensions 40 3).windowWidth = 108
  ∧ (generateCriticalDimensions 40 3).headstockWidth = 158 := by
  refine ⟨?_, ?_, ?_⟩ <;>
    norm_num [generateCriticalDimensions, calcOverallLength, calcBridgeWidthFromScale,
      calcBodyMinWidth]

/-- C7: every closed outline emitted by the views (side body, front body,
front tailpiece, frame outer body, frame inset) ends exactly at its first
emitted point. -/
theorem outlines_closed (c : DrawConfig) :
    (drawTalharpaSideSVG c).outline.closed
  ∧ (drawTalharpaSVG c).outline.closed
  ∧ (drawTalharpaSVG c).tailOutline.closed
  ∧ (drawTalharpaFrameSVG c).outline.closed
  ∧ (drawTalharpaFrameSVG c).insetOutline.closed :=
  ⟨rfl, rfl, rfl, rfl, rfl⟩

/-- The peg row has one position per string. -/
lemma pegHolePositions_length (c : DrawConfig) :
    (Front.pegHolePositions c).length = c.numStrings := by
  simp [Front.pegHolePositions]

/-- The bridge-anchor row has one position per string. -/
lemma anchorXPositions_length (c : DrawConfig) :
    (Front.anchorXPositions c).length = c.numStrings := by
  simp [Front.anchorXPositions]

/-- The tail-hole row has one position per string (including the 1-string case). -/
lemma tailHolePositions_length (c : DrawConfig) :
    (Front.tailHolePositions c).length = c.numStrings := by
  unfold Front.tailHolePositions
  split_ifs with h1
  · simp [h1]
  · simp

/-- The peg row is centred on `topMidX`. -/
lemma pegRow_mean (c : DrawConfig) (hn : 1 ≤ c.numStrings) :
    (Front.pegHolePositions c).sum / (c.numStrings : ℚ) = Front.topMidX c := by
  unfold Front.pegHolePositions
  refine mean_map_range_affine _ _ _ _ hn ?_
  unfold Front.pegStartXPos Front.totalPegSpan
  ring

/-- The bridge-anchor row is centred on `topMidX`. -/
lemma anchorRow_mean (c : DrawConfig) (hn : 1 ≤ c.numStrings) :
    (Front.anchorXPositions c).sum / (c.numStrings : ℚ) = Front.topMidX c := by
  unfold Front.anchorXPositions
  refine mean_map_range_affine _ _ _ _ hn ?_
  unfold Front.bridgeAnchorStartX Front.totalBridgeSpanDim Front.bridgeX
  ring

/-- The tail-hole row is centred on `topMidX` in both the 1-string and
many-string branches. -/
lemma tailRow_mean (c : DrawConfig) (hn : 1 ≤ c.numStrings) :
    (Front.tailHolePositions c).sum / (c.numStrings : ℚ) = Front.topMidX c := by
  unfold Front.tailHolePositions
  by_cases h1 : c.numStrings = 1
  · rw [if_pos h1]
    rw [Front.tailTopLeftX, Front.tailTopRightX, Front.tailMidX, h1]
    norm_num
  · rw [if_neg h1]
    show ((List.range c.numStrings).map fun (i : ℕ) =>
        Front.tailTopLeftX c + Front.tailTopWidthVal c / ((c.numStrings : ℚ) + 1) * ((i : ℚ) + 1)).sum
        / (c.numStrings : ℚ) = Front.topMidX c
    have hfun : (fun (i : ℕ) =>
            Front.tailTopLeftX c + Front.tailTopWidthVal c / ((c.numStrings : ℚ) + 1) * ((i : ℚ) + 1))
        = fun (i : ℕ) =>
            (Front.tailTopLeftX c + Front.tailTopWidthVal c / ((c.numStrings : ℚ) + 1))
              + (i : ℚ) * (Front.tailTopWidthVal c / ((c.numStrings : ℚ) + 1)) := by
      funext i
      ring
    rw [hfun]
    refine mean_map_range_affine _ _ _ _ hn ?_
    have hnz : ((c.numStrings : ℚ) + 1) ≠ 0 := by positivity
    rw [Front.tailTopLeftX, Front.tailMidX]
    field_simp
    ring

/-- C1 counterexample: at scaleCm = 30 (scaleMm = 300 < 350) the derived
soundhole centre does not follow the spec's piecewise-divisor formula —
the code divides by 1.85 unconditionally while the spec's formula would
use 1.9 below the threshold. -/
theorem soundhole_spec_mismatch_at_30 :
    (generateCriticalDimensions 30 3).soundHoleCenter ≠ soundholeCenterSpec 30 := by
  norm_num [generateCriticalDimensions, soundholeCenterSpec, calcOverallLength,
    calcBridgeWidthFromScale, calcBodyMinWidth]

/-- C1 amended: for every valid input, the derived soundholeCenter equals
`((scaleMm - windowLength - cutOutTop/2) / 1.85) + windowLength + cutOutTop`
with divisor 1.85 regardless of scaleMm, and the soundhole diameter is
50 mm when scaleMm ≥ 350 and 30 mm when scaleMm < 350. -/
theorem soundhole_center_amended (s : ℚ) (n : ℕ) (h1 : 26 ≤ s) (h2 : s ≤ 70) (hn : 1 ≤ n) :
    (generateCriticalDimensions s n).soundHoleCenter
      = ((s * 10 - (s * 10 * 0.5 + 20) - 35 / 2) / 1.85) + (s * 10 * 0.5 + 20) + 35
  ∧ 2 * Front.centralHoleRadius (mkDrawConfig s n) = (if s * 10 < 350 then (30 : ℚ) else 50) := by
  constructor
  · rfl
  · show 2 * ((if s * 10 < 350 then (30 : ℚ) else 50) / 2) = (if s * 10 < 350 then (30 : ℚ) else 50)
    ring

/-- Witness for C1's amended statement at scaleCm = 40, 3 strings. -/
theorem soundhole_center_amended_witness :
    (generateCriticalDimensions 40 3).soundHoleCenter
      = ((40 * 10 - (40 * 10 * 0.5 + 20) - 35 / 2) / 1.85) + (40 * 10 * 0.5 + 20) + 35
  ∧ 2 * Front.centralHoleRadius (mkDrawConfig 40 3) = (if (40 : ℚ) * 10 < 350 then (30 : ℚ) else 50) :=
  soundhole_center_amended 40 3 (by norm_num) (by norm_num) (by norm_num)

/-- C2: in the side-view outline, exactly one corner is a blend joint —
its radius is `(bodyMinDepth - neckThickness)/2` and it is the only arc
with sweep flag 1, while every other corner is a fixed-radius arc with
sweep flag 0; the blend arc is the sixth segment, the neck join between
D and E. -/
theorem side_outline_single_blend (c : DrawConfig) :
    ((drawTalharpaSideSVG c).outline.arcs.filter fun p => p.2)
      = [((c.bodyMinDepth - c.neckThickness) / 2, true)]
  ∧ ((drawTalharpaSideSVG c).outline.arcs.filter fun p => !p.2)
      = [(3, false), (3, false), (3, false), (3, false), (3, false)]
  ∧ (drawTalharpaSideSVG c).outline.segs[5]?
      = some (PathSeg.arc ((c.bodyMinDepth - c.neckThickness) / 2) true (Side.ptD2 c)) :=
  ⟨rfl, rfl, rfl⟩

/-- C3 counterexample: with a valid scale of 40 cm but `numStrings = 0`
(fewer than 1), the pipeline still produces a dimension set — `numStrings`
is never validated. -/
theorem numStrings_zero_not_rejected :
    (runRequest (JsNum.num 40) 0).isSome = true := by
  norm_num [runRequest, validateScaleLength, JsNum.isNaN, JsNum.ltQ, JsNum.gtQ]

/-- C3 amended: a request produces a dimension set iff the scale length is
a finite number inside [26, 70]; NaN, infinities and out-of-range scales
are rejected before any dimension set exists, but `numStrings` is not
checked at all. -/
theorem validation_characterization (s : JsNum) (n : ℕ) :
    (runRequest s n).isSome = true ↔ ∃ q : ℚ, s = JsNum.num q ∧ 26 ≤ q ∧ q ≤ 70 := by
  cases s with
  | num q =>
      have hval : validateScaleLength (JsNum.num q) = true ↔ (26 ≤ q ∧ q ≤ 70) := by
        simp [validateScaleLength, JsNum.isNaN, JsNum.ltQ, JsNum.gtQ, not_lt]
      constructor
      · intro h
        have hv : validateScaleLength (JsNum.num q) = true := by
          by_contra hv
          rw [runRequest, if_neg hv] at h
          simp at h
        exact ⟨q, rfl, (hval.mp hv).1, (hval.mp hv).2⟩
      · rintro ⟨q', hq, hlo, hhi⟩
        obtain rfl : q = q' := by injection hq
        rw [runRequest, if_pos (hval.mpr ⟨hlo, hhi⟩)]
        rfl
  | nan => simp [runRequest, validateScaleLength, JsNum.isNaN]
  | posInf => simp [runRequest, validateScaleLength, JsNum.isNaN, JsNum.ltQ, JsNum.gtQ]
  | negInf => simp [runRequest, validateScaleLength, JsNum.isNaN, JsNum.ltQ, JsNum.gtQ]

/-- Witness for C3's amended statement: scale 40 cm, 3 strings is accepted. -/
theorem validation_characterization_witness :
    (runRequest (JsNum.num 40) 3).isSome = true :=
  (validation_characterization (JsNum.num 40) 3).mpr ⟨40, rfl, by norm_num, by norm_num⟩

/-- C6: the peg-hole, bridge-anchor and tail-hole rows each contain exactly
`numStrings` positions and each row's mean x-coordinate is exactly the
drawing's horizontal centre `topMidX`. -/
theorem anchor_rows_symmetric (c : DrawConfig) (hn : 1 ≤ c.numStrings) :
    (drawTalharpaSVG c).pegHolePositions.length = c.numStrings
  ∧ (drawTalharpaSVG c).anchorXPositions.length = c.numStrings
  ∧ (drawTalharpaSVG c).tailHolePositions.length = c.numStrings
  ∧ (drawTalharpaSVG c).pegHolePositions.sum / (c.numStrings : ℚ) = (drawTalharpaSVG c).topMidX
  ∧ (drawTalharpaSVG c).anchorXPositions.sum / (c.numStrings : ℚ) = (drawTalharpaSVG c).topMidX
  ∧ (drawTalharpaSVG c).tailHolePositions.sum / (c.numStrings : ℚ) = (drawTalharpaSVG c).topMidX :=
  ⟨pegHolePositions_length c, anchorXPositions_length c, tailHolePositions_length c,
   pegRow_mean c hn, anchorRow_mean c hn, tailRow_mean c hn⟩

/-- Witness for C6 at the config assembled for scaleCm = 40, 3 strings. -/
theorem anchor_rows_symmetric_witness :
    (drawTalharpaSVG (mkDrawConfig 40 3)).pegHolePositions.sum
        / (((mkDrawConfig 40 3).numStrings : ℚ))
      = (drawTalharpaSVG (mkDrawConfig 40 3)).topMidX :=
  (anchor_rows_symmetric (mkDrawConfig 40 3) (by norm_num [mkDrawConfig])).2.2.2.1

/-- C8: with one string the single tail hole sits at the midpoint of the
tailpiece's top edge; with more strings the hole at index i (0-based) sits
at `tailTopLeftX + (i+1) * tailTopWidth/(numStrings+1)`. -/
theorem tail_holes_spacing (c : DrawConfig) :
    (c.numStrings = 1 →
        Front.tailHolePositions c = [(Front.tailTopLeftX c + Front.tailTopRightX c) / 2])
  ∧ (1 < c.numStrings → ∀ i : ℕ, i < c.numStrings →
        (Front.tailHolePositions c)[i]?
          = some (Front.tailTopLeftX c
              + ((i : ℚ) + 1) * (Front.tailTopWidthVal c / ((c.numStrings : ℚ) + 1)))) := by
  constructor
  · intro h1
    unfold Front.tailHolePositions
    rw [if_pos h1]
  · intro h1 i hi
    have hne : ¬ c.numStrings = 1 := by omega
    unfold Front.tailHolePositions
    rw [if_neg hne]
    show ((List.range c.numStrings).map fun (i : ℕ) =>
        Front.tailTopLeftX c + Front.tailTopWidthVal c / ((c.numStrings : ℚ) + 1) * ((i : ℚ) + 1))[i]?
      = _
    rw [List.getElem?_map, List.getElem?_range hi]
    simp only [Option.map_some', Option.some.injEq]
    ring

/-- Witness for C8 at the config assembled for scaleCm = 40, 3 strings. -/
theorem tail_holes_spacing_witness :
    (Front.tailHolePositions (mkDrawConfig 40 3))[0]?
      = some (Front.tailTopLeftX (mkDrawConfig 40 3)
          + (((0 : ℕ) : ℚ) + 1) * (Front.tailTopWidthVal (mkDrawConfig 40 3)
              / (((mkDrawConfig 40 3).numStrings : ℚ) + 1))) :=
  (tail_holes_spacing (mkDrawConfig 40 3)).2 (by norm_num [mkDrawConfig]) 0
    (by norm_num [mkDrawConfig])

/-- C9: none of the three views reads the `margin` field — two configs that
differ only in `margin` yield identical scenes — and the config assembled
by the dimension generator carries `margin = 10` while every view resolves
its offset from the absent `drawingMargin`/`extraMargin` fields to the
default total margin 60. -/
theorem margin_field_unread :
    (∀ (c : DrawConfig) (m : ℚ),
        drawTalharpaSVG { c with margin := m } = drawTalharpaSVG c
      ∧ drawTalharpaSideSVG { c with margin := m } = drawTalharpaSideSVG c
      ∧ drawTalharpaFrameSVG { c with margin := m } = drawTalharpaFrameSVG c)
  ∧ (∀ (scaleCm : ℚ) (numStrings : ℕ),
        (mkDrawConfig scaleCm numStrings).margin = 10
      ∧ Front.totalMargin (mkDrawConfig scaleCm numStrings) = 60
      ∧ Side.totalMargin (mkDrawConfig scaleCm numStrings) = 60
      ∧ Frame.totalMargin (mkDrawConfig scaleCm numStrings) = 60) := by
  constructor
  · intro c m
    exact ⟨rfl, rfl, rfl⟩
  · intro s n
    refine ⟨rfl, ?_, ?_, ?_⟩ <;>
      norm_num [Front.totalMargin, Front.drawingMarginVal, Front.extraMarginVal,
        Side.totalMargin, Side.drawingMarginVal, Side.extraMarginVal,
        Frame.totalMargin, Frame.drawingMarginVal, Frame.extraMarginVal, mkDrawConfig]

/-- C10: over the whole valid scale range the overall length keeps a
multiplier of at least 1.43, so the tail-length clamp can never fire and
the dimension table's clamped tailLength equals the front view's
unclamped `0.4*(overallLenMm - scaleMm)`. -/
theorem tail_length_unclamped (s : ℚ) (n : ℕ) (h1 : 26 ≤ s) (h2 : s ≤ 70) :
    14.3 * s ≤ calcOverallLength s
  ∧ 0 < calcOverallLength s - s * 10
  ∧ (generateCriticalDimensions s n).tailLength = 0.4 * (calcOverallLength s - s * 10)
  ∧ Front.tailLengthVal (mkDrawConfig s n) = (generateCriticalDimensions s n).tailLength := by
  have hmult : 14.3 * s ≤ calcOverallLength s := by
    unfold calcOverallLength
    split_ifs with ha hb
    · linarith
    · linarith
    · push_neg at ha hb
      nlinarith [mul_pos (show (0 : ℚ) < s by linarith) (show (0 : ℚ) < 56 - s by linarith)]
  have hpos : 0 < calcOverallLength s - s * 10 := by linarith
  have htail : (generateCriticalDimensions s n).tailLength
      = 0.4 * (calcOverallLength s - s * 10) := by
    show 0.4 * (if calcOverallLength s - s * 10 < 0 then 0 else calcOverallLength s - s * 10) = _
    rw [if_neg (not_lt.mpr hpos.le)]
  refine ⟨hmult, hpos, htail, ?_⟩
  show 0.4 * (calcOverallLength s - s * 10) = (generateCriticalDimensions s n).tailLength
  rw [htail]

/-- Witness for C10 at scaleCm = 40, 3 strings. -/
theorem tail_length_unclamped_witness :
    14.3 * 40 ≤ calcOverallLength 40
  ∧ 0 < calcOverallLength 40 - 40 * 10
  ∧ (generateCriticalDimensions 40 3).tailLength = 0.4 * (calcOverallLength 40 - 40 * 10)
  ∧ Front.tailLengthVal (mkDrawConfig 40 3) = (generateCriticalDimensions 40 3).tailLength :=
  tail_length_unclamped 40 3 (by norm_num) (by norm_num)

end Lyre
